import Mathlib

/-!
Shallow embedding of the `my_pr` scoring service (files `api.py`, `scoring.py`,
`store.py`) and proofs about its specification claims.

Modelling conventions:
* JSON / Python values are the inductive `Value` (null, string, integer, list, dict).
  Python `None` is `Value.null`; an absent attribute of a request object is `Option.none`.
* Hash functions (`hashlib.sha512(...).hexdigest()`, `hashlib.md5(...).hexdigest()`),
  Python `float(...)` string parsing and `json.loads` are opaque function parameters.
* Wall-clock time (`datetime.datetime.now()`) is an `Int` parameter counting minutes;
  a calendar date contributes `1440 * daysFromCivil` minutes (its midnight).
  The formatted hour string from `strftime("%Y%m%d%H")` is a separate `String` parameter.
* Python `str.isdigit` is modelled as "non-empty, ASCII digits only".
* Scores (Python floats: sums of 1.5/0.5, always exactly representable) are `Rat`.
-/

namespace MyPr

/-- Equality of `Except` results is decidable componentwise (used to let
`decide` evaluate the model on concrete inputs). -/
def exceptDecEq {e a : Type} [DecidableEq e] [DecidableEq a] :
    (x y : Except e a) → Decidable (x = y)
  | .error u, .error v =>
    if h : u = v then isTrue (by rw [h]) else isFalse (by intro hh; injection hh; contradiction)
  | .error _, .ok _ => isFalse (by intro hh; cases hh)
  | .ok _, .error _ => isFalse (by intro hh; cases hh)
  | .ok u, .ok v =>
    if h : u = v then isTrue (by rw [h]) else isFalse (by intro hh; injection hh; contradiction)

instance {e a : Type} [DecidableEq e] [DecidableEq a] : DecidableEq (Except e a) :=
  exceptDecEq

/-- A Python/JSON value as it can appear in a request body. -/
inductive Value where
  | null
  | str (s : String)
  | int (n : Int)
  | list (elems : List Value)
  | dict (entries : List (String × Value))

/-- `SALT = "Otus"` from `api.py`. -/
def SALT : String := "Otus"

/-- `ADMIN_LOGIN = "admin"` from `api.py`. -/
def ADMIN_LOGIN : String := "admin"

/-- `ADMIN_SALT = "42"` from `api.py`. -/
def ADMIN_SALT : String := "42"

def OK : Nat := 200

def FORBIDDEN : Nat := 403

def NOT_FOUND : Nat := 404

def INVALID_REQUEST : Nat := 422

/-- Numeric value of an ASCII digit character. -/
def charToDigit (c : Char) : Nat := c.toNat - 48

/-- Whether a character is an ASCII decimal digit (`'0'.toNat = 48`,
`'9'.toNat = 57`). -/
def isDigitChar (c : Char) : Bool := 48 ≤ c.toNat && c.toNat ≤ 57

/-- Model of Python `str.isdigit()` (restricted to ASCII digits): non-empty and
all characters in `'0'..'9'`. -/
def isDigitStr (s : String) : Bool := !s.isEmpty && s.data.all isDigitChar

/-- Model of Python `int(s)` on a digits-only string. -/
def strToNat (s : String) : Nat := s.data.foldl (fun a c => 10 * a + charToDigit c) 0

/-- The ASCII character for a decimal digit. -/
def digitChar (d : Nat) : Char := Char.ofNat (48 + d)

/-- Base-10 digits of `n`, least significant first, with explicit fuel
(`fuel ≥ n` is enough, so the kernel can evaluate it). -/
def natDigitsAux : Nat → Nat → List Nat
  | 0, _ => []
  | fuel + 1, n => if n = 0 then [] else n % 10 :: natDigitsAux fuel (n / 10)

/-- Base-10 digits of `n`, least significant first. -/
def natDigitsLSB (n : Nat) : List Nat := natDigitsAux n n

/-- Model of Python `str(n)` for a natural number: decimal digits, most
significant first. -/
def pyNatStr (n : Nat) : String :=
  if n = 0 then "0" else ⟨((natDigitsLSB n).map digitChar).reverse⟩

/-- Model of Python `str(i)` for an integer. -/
def pyIntStr (i : Int) : String :=
  if i < 0 then "-" ++ pyNatStr i.natAbs else pyNatStr i.natAbs

/-- Model of Python `x or ""` for an optional string (`None` and `""` both
collapse to `""`). -/
def pyOrEmpty : Option String → String
  | none => ""
  | some s => s

/-- A calendar date as parsed by `datetime.datetime.strptime(value, "%d.%m.%Y")`. -/
structure PyDate where
  day : Nat
  month : Nat
  year : Nat
deriving DecidableEq

def isLeapYear (y : Nat) : Bool := (y % 4 == 0 && y % 100 != 0) || y % 400 == 0

def daysInMonth (y m : Nat) : Nat :=
  if m = 2 then (if isLeapYear y then 29 else 28)
  else if m = 4 ∨ m = 6 ∨ m = 9 ∨ m = 11 then 30 else 31

/-- Splitting a character list at `'.'` separators (auxiliary). -/
def splitDotsAux : List Char → List Char → List String
  | [], acc => [⟨acc.reverse⟩]
  | c :: rest, acc =>
    if c = '.' then ⟨acc.reverse⟩ :: splitDotsAux rest [] else splitDotsAux rest (c :: acc)

/-- Split a string at `'.'` separators, as `s.split(".")` would
(the separator structure of the `"%d.%m.%Y"` format). -/
def splitDots (s : String) : List String := splitDotsAux s.data []

/-- Model of `datetime.datetime.strptime(s, "%d.%m.%Y")`: day and month are 1-2
digit fields, the year is a 4 digit field, and the triple must be a real
calendar date (`datetime` requires `1 <= year`). -/
def parseDate (s : String) : Option PyDate :=
  match splitDots s with
  | [ds, ms, ys] =>
    if 1 ≤ ds.length ∧ ds.length ≤ 2 ∧ ds.data.all isDigitChar
        ∧ 1 ≤ ms.length ∧ ms.length ≤ 2 ∧ ms.data.all isDigitChar
        ∧ ys.length = 4 ∧ ys.data.all isDigitChar then
      let d := strToNat ds
      let m := strToNat ms
      let y := strToNat ys
      if 1 ≤ m ∧ m ≤ 12 ∧ 1 ≤ d ∧ d ≤ daysInMonth y m ∧ 1 ≤ y then
        some ⟨d, m, y⟩
      else none
    else none
  | _ => none

/-- Days since 1970-01-01 of a proleptic Gregorian calendar date
(the standard `days_from_civil` algorithm). -/
def daysFromCivil (dt : PyDate) : Int :=
  let y : Nat := if dt.month ≤ 2 then dt.year - 1 else dt.year
  let era : Nat := y / 400
  let yoe : Nat := y - era * 400
  let mp : Nat := if 3 ≤ dt.month then dt.month - 3 else dt.month + 9
  let doy : Nat := (153 * mp + 2) / 5 + dt.day - 1
  let doe : Nat := yoe * 365 + yoe / 4 - yoe / 100 + doy
  (era * 146097 + doe : Int) - 719468

/-- The instant (in minutes, the unit of our clock model) of a date's midnight,
which is the `datetime` value `strptime` produces for it. -/
def dateMinutes (dt : PyDate) : Int := 1440 * daysFromCivil dt

/-- Minutes in `datetime.timedelta(days = n)`. -/
def timedeltaDays (n : Nat) : Int := 1440 * n

/-- Zero-padded two-digit field of `strftime` (`%m`, `%d`). -/
def pad2 (n : Nat) : String := if n < 10 then "0" ++ pyNatStr n else pyNatStr n

/-- Zero-padded four-digit year field of `strftime` (`%Y`). -/
def pad4 (n : Nat) : String :=
  if n < 10 then "000" ++ pyNatStr n
  else if n < 100 then "00" ++ pyNatStr n
  else if n < 1000 then "0" ++ pyNatStr n
  else pyNatStr n

/-- Model of `bday.strftime("%Y%m%d")` in `scoring.py`. -/
def fmtYMD (dt : PyDate) : String := pad4 dt.year ++ pad2 dt.month ++ pad2 dt.day

/-! ## Field validators (`api.py`, classes `CharField` .. `ClientIDsField`)

Each `validate` is a function `Value → Except String α`; `Except.error`
models a raised `ValueError` carrying the message. -/

/-- `CharField.validate`. -/
def charValidate (nullable : Bool) (name : String) : Value → Except String String
  | .str s =>
    if nullable = false ∧ s = "" then .error (name ++ " cannot be empty") else .ok s
  | _ => .error (name ++ " must be a string")

/-- `ArgumentsField.validate`. -/
def argumentsValidate : Value → Except String (List (String × Value))
  | .dict entries => .ok entries
  | _ => .error "arguments must be a dict"

/-- `EmailField.validate`: the `CharField` check, then
`if value and "@" not in value: raise`. -/
def emailValidate (nullable : Bool) (name : String) (v : Value) : Except String String :=
  match charValidate nullable name v with
  | .error e => .error e
  | .ok s =>
    if s ≠ "" ∧ ¬ s.data.contains '@' then .error "invalid email" else .ok s

/-- The final digit-count/leading-digit check of `PhoneField.validate`, applied
to the value after string-to-int normalization:
`if len(str(value)) != 11 or str(value)[0] != "7": raise`. -/
def phoneIntCheck (n : Int) : Except String Int :=
  if (pyIntStr n).length = 11 ∧ (pyIntStr n).data.head? = some '7' then .ok n
  else .error "phone must be 11 digits starting with 7"

/-- `PhoneField.validate`. -/
def phoneValidate : Value → Except String Int
  | .str s =>
    if isDigitStr s then phoneIntCheck (strToNat s : Int)
    else .error "phone must be digits"
  | .int n => phoneIntCheck n
  | _ => .error "phone must be int or string of digits"

/-- `DateField.validate`. -/
def dateValidate : Value → Except String String
  | .str s =>
    match parseDate s with
    | some _ => .ok s
    | none => .error "invalid date format"
  | _ => .error "date must be string"

/-- `BirthDayField.validate`: the `DateField` check, then
`if date < datetime.datetime.now() - datetime.timedelta(days=70 * 365): raise`.
`now` is the current instant in minutes. -/
def birthDayValidate (now : Int) : Value → Except String String
  | .str s =>
    match parseDate s with
    | some dt =>
      if dateMinutes dt < now - timedeltaDays (70 * 365) then .error "birthday too old"
      else .ok s
    | none => .error "invalid date format"
  | _ => .error "date must be string"

/-- `GenderField.validate`: `if not isinstance(value, int) or value not in [0, 1, 2]`. -/
def genderValidate : Value → Except String Int
  | .int n => if n = 0 ∨ n = 1 ∨ n = 2 then .ok n else .error "gender must be 0, 1 or 2"
  | _ => .error "gender must be 0, 1 or 2"

/-- `ClientIDsField.validate`. -/
def clientIDsValidate : Value → Except String (List Int)
  | .list l =>
    if l.isEmpty then .error "client_ids cannot be empty"
    else if l.all (fun v => match v with | .int _ => true | _ => false) then
      .ok (l.filterMap (fun v => match v with | .int n => some n | _ => none))
    else .error "client_ids must be list of ints"
  | _ => .error "client_ids must be list"

/-- `Field.__set__` (`api.py` lines 54-61): the `required` check, the `nullable`
check, then validation of a non-`None` value. The result is the value bound in
the instance dictionary (`none` when the raw value was `None`). -/
def fieldSet {α : Type} (required nullable : Bool) (name : String)
    (validate : Value → Except String α) : Value → Except String (Option α)
  | .null =>
    if required then .error (name ++ " is required")
    else if nullable = false then .error (name ++ " cannot be null")
    else .ok none
  | v => (validate v).map some

/-! ## Request objects -/

/-- `MethodRequest`: five descriptor fields; an unset field reads as `None`
(`Field.__get__` falls back to `instance.__dict__.get(...)`). -/
structure MethodRequest where
  account : Option String := none
  login : Option String := none
  token : Option String := none
  arguments : Option (List (String × Value)) := none
  method : Option String := none

/-- `MethodRequest.is_admin`. -/
def MethodRequest.is_admin (r : MethodRequest) : Bool := r.login == some ADMIN_LOGIN

/-- One `setattr` step of `MethodRequest.__init__`, including the
`allowed_fields` membership check that precedes it. -/
def mrSetAttr (r : MethodRequest) (kv : String × Value) : Except String MethodRequest :=
  if kv.1 = "account" then
    (fieldSet false true "account" (charValidate true "account") kv.2).map
      (fun x => { r with account := x })
  else if kv.1 = "login" then
    (fieldSet true true "login" (charValidate true "login") kv.2).map
      (fun x => { r with login := x })
  else if kv.1 = "token" then
    (fieldSet true true "token" (charValidate true "token") kv.2).map
      (fun x => { r with token := x })
  else if kv.1 = "arguments" then
    (fieldSet true true "arguments" argumentsValidate kv.2).map
      (fun x => { r with arguments := x })
  else if kv.1 = "method" then
    (fieldSet true true "method" (charValidate true "method") kv.2).map
      (fun x => { r with method := x })
  else .error ("Unknown field: " ++ kv.1)

/-- `MethodRequest.__init__(**kwargs)`: iterate the keyword mapping, binding
each value through its field descriptor; the first raised error aborts. -/
def methodRequestInit (kwargs : List (String × Value)) : Except String MethodRequest :=
  kwargs.foldlM mrSetAttr {}

/-- `OnlineScoreRequest`: six optional descriptor fields. `phone` and `gender`
hold the integer the validator normalized to. -/
structure OnlineScoreRequest where
  first_name : Option String := none
  last_name : Option String := none
  email : Option String := none
  phone : Option Int := none
  birthday : Option String := none
  gender : Option Int := none

/-- One `setattr` step of `OnlineScoreRequest.__init__`. A key that is not a
declared field becomes a plain instance attribute (Python `setattr` with no
descriptor), which raises nothing and leaves every field unchanged. -/
def osrSetAttr (now : Int) (r : OnlineScoreRequest) (kv : String × Value) :
    Except String OnlineScoreRequest :=
  if kv.1 = "first_name" then
    (fieldSet false true "first_name" (charValidate true "first_name") kv.2).map
      (fun x => { r with first_name := x })
  else if kv.1 = "last_name" then
    (fieldSet false true "last_name" (charValidate true "last_name") kv.2).map
      (fun x => { r with last_name := x })
  else if kv.1 = "email" then
    (fieldSet false true "email" (emailValidate true "email") kv.2).map
      (fun x => { r with email := x })
  else if kv.1 = "phone" then
    (fieldSet false true "phone" phoneValidate kv.2).map
      (fun x => { r with phone := x })
  else if kv.1 = "birthday" then
    (fieldSet false true "birthday" (birthDayValidate now) kv.2).map
      (fun x => { r with birthday := x })
  else if kv.1 = "gender" then
    (fieldSet false true "gender" genderValidate kv.2).map
      (fun x => { r with gender := x })
  else .ok r

/-- `OnlineScoreRequest.__init__(**kwargs)`. -/
def onlineScoreRequestInit (now : Int) (kwargs : List (String × Value)) :
    Except String OnlineScoreRequest :=
  kwargs.foldlM (osrSetAttr now) {}

/-- `ClientsInterestsRequest`: `client_ids` (required) and `date` (optional). -/
structure ClientsInterestsRequest where
  client_ids : Option (List Int) := none
  date : Option String := none

/-- One `setattr` step of `ClientsInterestsRequest.__init__`; unknown keys are
plain instance attributes, as for `OnlineScoreRequest`. -/
def cirSetAttr (r : ClientsInterestsRequest) (kv : String × Value) :
    Except String ClientsInterestsRequest :=
  if kv.1 = "client_ids" then
    (fieldSet true true "client_ids" clientIDsValidate kv.2).map
      (fun x => { r with client_ids := x })
  else if kv.1 = "date" then
    (fieldSet false true "date" dateValidate kv.2).map
      (fun x => { r with date := x })
  else .ok r

/-- `ClientsInterestsRequest.__init__(**kwargs)`. -/
def clientsInterestsRequestInit (kwargs : List (String × Value)) :
    Except String ClientsInterestsRequest :=
  kwargs.foldlM cirSetAttr {}

/-! ## Authentication (`api.py`, `check_auth`) -/

/-- `check_auth(request)`. `sha512hex` is `hashlib.sha512(...).hexdigest()` as
an opaque function on the input string; `nowHourStr` is the result of
`datetime.datetime.now().strftime("%Y%m%d%H")`. `digest == request.token`
is `False` whenever `token` is unset (`None`). -/
def check_auth (sha512hex : String → String) (nowHourStr : String)
    (r : MethodRequest) : Bool :=
  let digest :=
    if r.is_admin then sha512hex (nowHourStr ++ ADMIN_SALT)
    else sha512hex (pyOrEmpty r.account ++ pyOrEmpty r.login ++ SALT)
  some digest == r.token

/-! ## Store (`store.py`)

The Redis backend is an oracle `outcomes : Nat → RedisResult α` giving the
outcome of the `attempt`-th call of the wrapped client command; `connError`
is a raised `redis.ConnectionError`. -/

/-- Outcome of one call into the Redis client. -/
inductive RedisResult (α : Type) where
  | ok (value : α)
  | connError

/-- Result of `Store._execute_with_retry`: the returned value or the
propagated `ConnectionError`, plus how many attempts were made and how many
times `_connect` rebuilt the client handle. -/
structure ExecOut (α : Type) where
  result : Except Unit α
  attempts : Nat
  reconnects : Nat

/-- The `for attempt in range(self.retries)` loop of `_execute_with_retry`,
with `fuel` attempts still available (the current attempt index is
`retries - fuel`). `fuel = 0` is the loop falling through to the final
`raise redis.ConnectionError("Failed after retries")`. -/
def execLoop (retries : Nat) (outcomes : Nat → RedisResult α) : Nat → ExecOut α
  | 0 => ⟨.error (), 0, 0⟩
  | fuel + 1 =>
    let attempt := retries - (fuel + 1)
    match outcomes attempt with
    | .ok a => ⟨.ok a, 1, 0⟩
    | .connError =>
      if attempt = retries - 1 then ⟨.error (), 1, 0⟩
      else
        let rest := execLoop retries outcomes fuel
        ⟨rest.result, rest.attempts + 1, rest.reconnects + 1⟩

/-- `Store._execute_with_retry(func, ...)`. -/
def executeWithRetry (retries : Nat) (outcomes : Nat → RedisResult α) : ExecOut α :=
  execLoop retries outcomes retries

/-- `Store.get(key)`: the retry result, a raised `ConnectionError` propagating. -/
def store_get (retries : Nat) (outcomes : Nat → RedisResult (Option String)) :
    Except Unit (Option String) :=
  (executeWithRetry retries outcomes).result

/-- `Store.cache_get(key)`: the same retry call inside
`try: ... except redis.ConnectionError: return None`. The `Except` layer is
the function's own raise behavior, which the handler shows is always `ok`. -/
def store_cache_get (retries : Nat) (outcomes : Nat → RedisResult (Option String)) :
    Except Unit (Option String) :=
  match (executeWithRetry retries outcomes).result with
  | .ok v => .ok v
  | .error _ => .ok none

/-- `Store.cache_set(key, value, ttl)`: the retried `setex` inside
`try: ... except redis.ConnectionError: pass`. -/
def store_cache_set (retries : Nat) (outcomes : Nat → RedisResult Unit) :
    Except Unit Unit :=
  match (executeWithRetry retries outcomes).result with
  | .ok _ => .ok ()
  | .error _ => .ok ()

/-! ## Scoring (`scoring.py`) -/

/-- A store operation issued by the business logic (for stating which store
calls a code path performs). -/
inductive StoreOp where
  | cget (key : String)
  | cset (key : String) (value : Rat) (ttl : Nat)
  | pget (key : String)

/-- Python truthiness of an optional string (`None` and `""` are falsy). -/
def strTruthy : Option String → Bool
  | none => false
  | some s => !(s == "")

/-- Python truthiness of an optional integer (`None` and `0` are falsy). -/
def intTruthy : Option Int → Bool
  | none => false
  | some n => !(n == 0)

/-- `get_score(store, phone, email, birthday, gender, first_name, last_name)`.

`md5hex` models `hashlib.md5(...).hexdigest()`, `pyFloat` models `float(...)`
on the cached string, and `cache_get` is the net result of `store.cache_get`
(`none` is both a miss and a swallowed backend failure, which `scoring.py`
cannot distinguish). The returned list records the store calls made.
`Except.error` is the uncaught `ValueError` of `strptime` on an unparseable
truthy `birthday`. -/
def get_score (md5hex : String → String) (pyFloat : String → Rat)
    (cache_get : String → Option String)
    (phone : Option Int) (email : Option String) (birthday : Option String)
    (gender : Option Int) (first_name : Option String) (last_name : Option String) :
    Except Unit (Rat × List StoreOp) :=
  let part1 := pyOrEmpty first_name
  let part2 := pyOrEmpty last_name
  let part3 : String :=
    match phone with
    | some n => if n == 0 then "" else pyIntStr n
    | none => ""
  let part4E : Except Unit String :=
    match birthday with
    | some b =>
      if b == "" then .ok ""
      else
        match parseDate b with
        | some dt => .ok (fmtYMD dt)
        | none => .error ()
    | none => .ok ""
  match part4E with
  | .error _ => .error ()
  | .ok part4 =>
    let key := "uid:" ++ md5hex (part1 ++ part2 ++ part3 ++ part4)
    match cache_get key with
    | some cached => .ok (pyFloat cached, [StoreOp.cget key])
    | none =>
      let s0 : Rat := 0
      let s1 := if intTruthy phone then s0 + 1.5 else s0
      let s2 := if strTruthy email then s1 + 1.5 else s1
      let s3 := if strTruthy birthday && gender.isSome then s2 + 1.5 else s2
      let s4 := if strTruthy first_name && strTruthy last_name then s3 + 0.5 else s3
      .ok (s4, [StoreOp.cget key, StoreOp.cset key s4 (60 * 60)])

/-- `get_interests(store, cid)`. `storeGetNet` is the net result of
`store.get` (whose `ConnectionError`, when every retry fails, propagates);
`parseJSON` models `json.loads`, whose failure also propagates. -/
def get_interests (storeGetNet : String → Except Unit (Option String))
    (parseJSON : String → Except Unit Value) (cid : Int) : Except Unit Value :=
  match storeGetNet ("i:" ++ pyIntStr cid) with
  | .error _ => .error ()
  | .ok none => .ok (.list [])
  | .ok (some r) => if r == "" then .ok (.list []) else parseJSON r

/-! ## Dispatcher (`api.py`, `method_handler`) -/

/-- The response part of a `method_handler` return value. -/
inductive HResp where
  | err (msg : String)
  | score (value : Rat)
  | interests (entries : List (String × Value))

/-- The pair check of the `online_score` branch:
`any(all(p is not None and p != "" for p in pair) for pair in pairs)`.
For the integer-valued members (`phone`, `gender`) the comparison
`p != ""` is always true in Python, so only `is not None` remains. -/
def pairRule (r : OnlineScoreRequest) : Bool :=
  (r.phone.isSome && strTruthy r.email)
  || (strTruthy r.first_name && strTruthy r.last_name)
  || (r.gender.isSome && strTruthy r.birthday)

/-- The `clients_interests` response loop, also accumulating the store reads. -/
def interestsLoop (storeGetNet : String → Except Unit (Option String))
    (parseJSON : String → Except Unit Value) (ids : List Int) :
    Except Unit (List (String × Value) × List StoreOp) :=
  ids.foldlM
    (fun acc cid =>
      match get_interests storeGetNet parseJSON cid with
      | .error _ => .error ()
      | .ok v =>
        .ok (acc.1 ++ [(pyIntStr cid, v)], acc.2 ++ [StoreOp.pget ("i:" ++ pyIntStr cid)]))
    ([], [])

/-- `method_handler(request, ctx, store)` on `request["body"] = body`.

The value is the returned `(response, code)` pair plus the list of store
operations performed; `Except.error ()` is an exception that `method_handler`
does not catch (a `TypeError` from `**None`, a propagating store
`ConnectionError`, a `json.loads` failure), which `do_POST` turns into 500. -/
def method_handler (sha512hex md5hex : String → String) (pyFloat : String → Rat)
    (nowHourStr : String) (now : Int)
    (cache_get : String → Option String)
    (storeGetNet : String → Except Unit (Option String))
    (parseJSON : String → Except Unit Value)
    (body : List (String × Value)) :
    Except Unit (HResp × Nat × List StoreOp) :=
  match methodRequestInit body with
  | .error e => .ok (.err e, INVALID_REQUEST, [])
  | .ok req =>
    if !(check_auth sha512hex nowHourStr req) then .ok (.err "Forbidden", FORBIDDEN, [])
    else if req.method == some "online_score" then
      match req.arguments with
      | none => .error ()
      | some args =>
        match onlineScoreRequestInit now args with
        | .error e => .ok (.err e, INVALID_REQUEST, [])
        | .ok osr =>
          if !(pairRule osr) then
            .ok (.err "at least one pair must be filled", INVALID_REQUEST, [])
          else if req.is_admin then .ok (.score 42, OK, [])
          else
            match get_score md5hex pyFloat cache_get osr.phone osr.email osr.birthday
                osr.gender osr.first_name osr.last_name with
            | .error _ => .error ()
            | .ok (s, ops) => .ok (.score s, OK, ops)
    else if req.method == some "clients_interests" then
      match req.arguments with
      | none => .error ()
      | some args =>
        match clientsInterestsRequestInit args with
        | .error e => .ok (.err e, INVALID_REQUEST, [])
        | .ok cir =>
          match cir.client_ids with
          | none => .error ()
          | some ids =>
            match interestsLoop storeGetNet parseJSON ids with
            | .error _ => .error ()
            | .ok (entries, ops) => .ok (.interests entries, OK, ops)
    else .ok (.err "unknown method", NOT_FOUND, [])


/-! ## Spec-side definitions used by the claim statements -/

/-- The additive score formula of the specification (claim C5): 1.5 for a
filled phone, 1.5 for a filled email, 1.5 for a filled birthday together with
a supplied gender (a gender of 0 counts, cf. C10: its presence test is
`is not None`), 0.5 for both names filled. -/
def scoreSpec (phone : Option Int) (email birthday : Option String)
    (gender : Option Int) (first_name last_name : Option String) : Rat :=
  (if intTruthy phone then 1.5 else 0)
    + (if strTruthy email then 1.5 else 0)
    + (if strTruthy birthday && gender.isSome then 1.5 else 0)
    + (if strTruthy first_name && strTruthy last_name then 0.5 else 0)

/-- A concrete "current moment" for counterexamples: midnight of 2026-10-12. -/
def nowOct2026 : Int := dateMinutes ⟨12, 10, 2026⟩

/-- The invariant every constructed `OnlineScoreRequest` satisfies: a bound
birthday string parses (it passed `BirthDayField.validate`). -/
def osrBirthdayInv (r : OnlineScoreRequest) : Prop :=
  ∀ b, r.birthday = some b → (parseDate b).isSome = true

/-! ## Helper lemmas -/

theorem natDigitsAux_eq_digits (fuel : Nat) : ∀ n : Nat, n ≤ fuel → natDigitsAux fuel n = Nat.digits 10 n := by
  induction fuel with
  | zero => intro n hn; interval_cases n; simp [natDigitsAux]
  | succ m ih =>
    intro n hn
    rw [natDigitsAux]
    by_cases h0 : n = 0
    · simp [h0]
    · rw [if_neg h0, Nat.digits_def' (by norm_num : (1:Nat) < 10) (Nat.pos_of_ne_zero h0)]
      rw [ih (n / 10) (by omega)]

theorem natDigitsLSB_eq_digits (n : Nat) : natDigitsLSB n = Nat.digits 10 n :=
  natDigitsAux_eq_digits n n le_rfl

theorem foldl_digits_eq_ofDigits (l : List Char) :
    l.foldl (fun a c => 10 * a + charToDigit c) 0 = Nat.ofDigits 10 ((l.map charToDigit).reverse) := by
  induction l using List.reverseRecOn with
  | nil => simp [Nat.ofDigits]
  | append_singleton l c ih =>
    rw [List.foldl_append]
    simp only [List.foldl_cons, List.foldl_nil, List.map_append, List.reverse_append]
    simp [Nat.ofDigits_cons, ih]
    omega

theorem digitChar_charToDigit {c : Char} (h : isDigitChar c = true) :
    digitChar (charToDigit c) = c := by
  simp only [isDigitChar, Bool.and_eq_true, decide_eq_true_eq] at h
  have h' : 48 + (c.toNat - 48) = c.toNat := by omega
  simp only [digitChar, charToDigit, h', Char.ofNat_toNat]

theorem charToDigit_lt_ten {c : Char} (h : isDigitChar c = true) : charToDigit c < 10 := by
  simp only [isDigitChar, Bool.and_eq_true, decide_eq_true_eq] at h
  simp only [charToDigit]; omega

theorem charToDigit_eq_zero {c : Char} (hdig : isDigitChar c = true)
    (hz : charToDigit c = 0) : c = '0' := by
  simp only [isDigitChar, Bool.and_eq_true, decide_eq_true_eq] at hdig
  simp only [charToDigit] at hz
  have ht : c.toNat = 48 := by omega
  calc c = Char.ofNat c.toNat := (Char.ofNat_toNat c).symm
    _ = Char.ofNat 48 := by rw [ht]
    _ = '0' := by decide

theorem map_digitChar_charToDigit (l : List Char) :
    (∀ c ∈ l, isDigitChar c = true) → List.map digitChar (List.map charToDigit l) = l := by
  induction l with
  | nil => intro _; rfl
  | cons a t iht =>
    intro hl
    simp only [List.map_cons]
    rw [digitChar_charToDigit (hl a (List.mem_cons_self a t)),
      iht (fun c hc => hl c (List.mem_cons_of_mem a hc))]

theorem pyNatStr_strToNat {s : String} (hd : isDigitStr s = true)
    (h0 : s.data.head? ≠ some '0') : pyNatStr (strToNat s) = s := by
  have hne : s.data ≠ [] := by
    intro h
    have hs : s = "" := by
      cases s with
      | mk data => rw [show data = [] from h]
    rw [hs] at hd
    exact absurd hd (by decide)
  have hall : ∀ c ∈ s.data, isDigitChar c = true := by
    simp only [isDigitStr, Bool.and_eq_true, List.all_eq_true] at hd
    exact fun c hc => hd.2 c hc
  obtain ⟨c0, hc0⟩ : ∃ c, s.data.head? = some c := by
    cases hh : s.data with
    | nil => exact absurd hh hne
    | cons a l => exact ⟨a, by simp [hh]⟩
  have hlt : ∀ d ∈ (s.data.map charToDigit).reverse, d < 10 := by
    intro d hdm
    rw [List.mem_reverse, List.mem_map] at hdm
    obtain ⟨c, hc, rfl⟩ := hdm
    exact charToDigit_lt_ten (hall c hc)
  have hLne : (s.data.map charToDigit).reverse ≠ [] := by simpa using hne
  have hlastq : ((s.data.map charToDigit).reverse).getLast? = some (charToDigit c0) := by
    rw [List.getLast?_reverse, List.head?_map, hc0]
    rfl
  have hc0mem : c0 ∈ s.data := by
    cases hh : s.data with
    | nil => exact absurd hh hne
    | cons a l =>
      rw [hh] at hc0
      injection hc0 with h'
      subst h'
      exact List.mem_cons_self a l
  have hlast : ∀ (h : (s.data.map charToDigit).reverse ≠ []),
      ((s.data.map charToDigit).reverse).getLast h ≠ 0 := by
    intro h hz
    rw [List.getLast?_eq_getLast _ h, hz] at hlastq
    injection hlastq with h'
    exact h0 (by rw [hc0, charToDigit_eq_zero (hall c0 hc0mem) h'.symm])
  have hofd : strToNat s = Nat.ofDigits 10 ((s.data.map charToDigit).reverse) := by
    rw [strToNat, foldl_digits_eq_ofDigits]
  have hdig : Nat.digits 10 (strToNat s) = (s.data.map charToDigit).reverse := by
    rw [hofd]
    exact Nat.digits_ofDigits 10 (by norm_num) _ hlt hlast
  have hn0 : strToNat s ≠ 0 := by
    intro h
    rw [h] at hdig
    simp only [Nat.digits_zero] at hdig
    exact hLne hdig.symm
  rw [pyNatStr, if_neg hn0, natDigitsLSB_eq_digits, hdig]
  rw [List.map_reverse, List.reverse_reverse, map_digitChar_charToDigit s.data hall]

section StoreLemmas

variable {α : Type}

theorem execLoop_counts (retries : Nat) (o : Nat → RedisResult α) :
    ∀ fuel, (execLoop retries o fuel).attempts ≤ fuel
      ∧ (execLoop retries o fuel).reconnects = (execLoop retries o fuel).attempts - 1
      ∧ (1 ≤ fuel → 1 ≤ (execLoop retries o fuel).attempts) := by
  intro fuel
  induction fuel with
  | zero => exact ⟨le_rfl, rfl, fun h => absurd h (by omega)⟩
  | succ m ih =>
    rw [execLoop]
    cases o (retries - (m + 1)) with
    | ok a =>
      dsimp only
      exact ⟨by omega, rfl, fun _ => le_rfl⟩
    | connError =>
      by_cases hlastAtt : retries - (m + 1) = retries - 1
      · rw [if_pos hlastAtt]
        dsimp only
        exact ⟨by omega, rfl, fun _ => le_rfl⟩
      · rw [if_neg hlastAtt]
        dsimp only
        have hm : 1 ≤ m := by omega
        have h1 := ih.2.2 hm
        have h2 := ih.2.1
        have h3 := ih.1
        exact ⟨by omega, by omega, fun _ => by omega⟩

theorem execLoop_allFail (retries : Nat) (o : Nat → RedisResult α)
    (hall : ∀ i, i < retries → o i = RedisResult.connError) :
    ∀ fuel, fuel ≤ retries → (execLoop retries o fuel).result = Except.error () := by
  intro fuel
  induction fuel with
  | zero => intro _; rfl
  | succ m ih =>
    intro hle
    rw [execLoop, hall (retries - (m + 1)) (by omega)]
    by_cases hlastAtt : retries - (m + 1) = retries - 1
    · rw [if_pos hlastAtt]
    · rw [if_neg hlastAtt]
      exact ih (by omega)

end StoreLemmas

/-! ## Claim theorems -/

/-- C1: `check_auth(request)` returns true if and only if `request.token`
equals the expected hex SHA-512 digest: for a request whose login equals the
admin identifier, the digest of the current hour formatted "YYYYMMDDHH"
(the parameter `nowHourStr`) concatenated with the admin salt; for every
other request, the digest of (account or empty string) + (login or empty
string) + salt. -/
theorem check_auth_token_iff (sha512hex : String → String) (nowHourStr : String)
    (r : MethodRequest) :
    check_auth sha512hex nowHourStr r = true ↔
      r.token = some (if r.login = some ADMIN_LOGIN
          then sha512hex (nowHourStr ++ ADMIN_SALT)
          else sha512hex (pyOrEmpty r.account ++ pyOrEmpty r.login ++ SALT)) := by
  simp only [check_auth, MethodRequest.is_admin, beq_iff_eq]
  exact eq_comm

/-- C2 counterexample: constructing a `MethodRequest` from the empty mapping
succeeds even though `login`, `token`, `arguments` and `method` are all
declared required and received no value at all — `__init__` only iterates the
supplied keys, so an entirely missing key never reaches `Field.__set__` and no
"required" error is raised, contradicting the claim. -/
theorem methodRequest_empty_construction_succeeds :
    methodRequestInit [] = Except.ok ({} : MethodRequest) := rfl

/-- C2 (amended): a required field raises a "required" error exactly when its
key is present in the input mapping with an absent (`None`) value; a key that
is entirely missing from the mapping is silently left absent and construction
succeeds (shown for `MethodRequest` and `ClientsInterestsRequest`;
`OnlineScoreRequest` declares no required field). -/
theorem required_field_null_vs_missing (k : String) (rest : List (String × Value))
    (h : k = "login" ∨ k = "token" ∨ k = "arguments" ∨ k = "method") :
    methodRequestInit ((k, Value.null) :: rest) = Except.error (k ++ " is required")
    ∧ methodRequestInit [] = Except.ok ({} : MethodRequest)
    ∧ clientsInterestsRequestInit (("client_ids", Value.null) :: rest) =
        Except.error "client_ids is required"
    ∧ clientsInterestsRequestInit [] = Except.ok ({} : ClientsInterestsRequest) := by
  rcases h with h | h | h | h <;> subst h <;> exact ⟨rfl, rfl, rfl, rfl⟩

/-- Witness for C2 (amended) at `k = "login"`, `rest = []`. -/
theorem required_field_null_vs_missing_witness :
    methodRequestInit [("login", Value.null)] = Except.error "login is required"
    ∧ methodRequestInit [] = Except.ok ({} : MethodRequest) :=
  ⟨(required_field_null_vs_missing "login" [] (Or.inl rfl)).1,
    (required_field_null_vs_missing "login" [] (Or.inl rfl)).2.1⟩

/-- C9 counterexample: the email field of `OnlineScoreRequest` is declared
`EmailField(required=False, nullable=True)`; with `nullable=True` its
validator accepts the empty string (the `CharField` emptiness check only
fires for non-nullable fields and `if value and "@" not in value` skips falsy
values), contradicting "the empty string is rejected". -/
theorem email_empty_accepted_when_nullable :
    emailValidate true "email" (Value.str "") = Except.ok "" := rfl

/-- C9 (amended): `EmailField` validation succeeds if and only if the value is
a string that is either empty (accepted only when the field is nullable, as
the `OnlineScoreRequest.email` field is) or contains the character '@'; the
empty string is rejected only for a non-nullable field. -/
theorem email_validate_iff (nullable : Bool) (name : String) (v : Value) (s : String) :
    emailValidate nullable name v = Except.ok s ↔
      v = Value.str s ∧ (s = "" → nullable = true)
        ∧ (s ≠ "" → s.data.contains '@' = true) := by
  cases v with
  | str t =>
    simp only [emailValidate, charValidate]
    split_ifs with h1
    · constructor
      · intro hh; exact absurd hh (by simp)
      · rintro ⟨hts, hnul, _⟩
        injection hts with hts'
        subst hts'
        exact absurd (hnul h1.2) (by simp [h1.1])
    · dsimp only
      split_ifs with h2
      · constructor
        · intro hh; exact absurd hh (by simp)
        · rintro ⟨hts, hnul, hat⟩
          injection hts with hts'
          subst hts'
          exact absurd (hat h2.1) h2.2
      · push_neg at h1 h2
        constructor
        · intro hh
          injection hh with hh'
          subst hh'
          refine ⟨rfl, fun ht => ?_, fun ht => h2 ht⟩
          by_cases hn : nullable = true
          · exact hn
          · exact absurd ht (h1 (by simpa using hn))
        · rintro ⟨hts, _, _⟩
          injection hts with hts'
          rw [hts']
  | null => simp [emailValidate, charValidate]
  | int n => simp [emailValidate, charValidate]
  | list l => simp [emailValidate, charValidate]
  | dict d => simp [emailValidate, charValidate]

/-- C7 counterexample: with "now" = midnight 2026-10-12, the parseable date
"01.01.2030" lies strictly after "now" yet `BirthDayField` accepts it (the
validator has no upper bound), and "20.10.1956" lies strictly after "now
minus 70 years" (midnight 1956-10-12, the same calendar day 70 years
earlier) and before "now" yet is rejected, because the code measures the
window as `timedelta(days=70*365)` = 25550 days, which ends on 1956-10-29.
Both directions of the claimed equivalence fail. -/
theorem birthday_window_counterexample :
    (birthDayValidate nowOct2026 (Value.str "01.01.2030") = Except.ok "01.01.2030"
      ∧ parseDate "01.01.2030" = some ⟨1, 1, 2030⟩
      ∧ nowOct2026 < dateMinutes ⟨1, 1, 2030⟩)
    ∧ (birthDayValidate nowOct2026 (Value.str "20.10.1956") = Except.error "birthday too old"
      ∧ parseDate "20.10.1956" = some ⟨20, 10, 1956⟩
      ∧ dateMinutes ⟨12, 10, 1956⟩ < dateMinutes ⟨20, 10, 1956⟩
      ∧ dateMinutes ⟨20, 10, 1956⟩ < nowOct2026) :=
  ⟨⟨by decide, by decide, by decide⟩, by decide, by decide, by decide, by decide⟩

/-- C7 (amended): for every string value parseable as a day.month.year date,
`BirthDayField` validation succeeds if and only if the parsed date (at
midnight) is on or after the current moment minus 70*365 days; in particular
there is no upper bound, so future dates are accepted. -/
theorem birthday_validate_iff_window (now : Int) (s : String) (dt : PyDate)
    (h : parseDate s = some dt) :
    birthDayValidate now (Value.str s) = Except.ok s ↔
      now - timedeltaDays (70 * 365) ≤ dateMinutes dt := by
  simp only [birthDayValidate, h]
  split_ifs with hc
  · exact iff_of_false (by simp) (by omega)
  · exact iff_of_true rfl (by omega)

/-- Witness for C7 (amended) at the parseable date "01.01.2000". -/
theorem birthday_validate_iff_window_witness :
    birthDayValidate nowOct2026 (Value.str "01.01.2000") = Except.ok "01.01.2000" ↔
      nowOct2026 - timedeltaDays (70 * 365) ≤ dateMinutes ⟨1, 1, 2000⟩ :=
  birthday_validate_iff_window nowOct2026 "01.01.2000" ⟨1, 1, 2000⟩ (by decide)

/-- C4: every store operation makes at most `retries` attempts; between
consecutive attempts (that is, after every failed non-final attempt) the
connection handle is rebuilt, so the reconnect count is exactly the attempt
count minus one; when every attempt raises a connection error, `Store.get`
propagates the error while `cache_get` returns an absent value and
`cache_set` silently drops the write; the two cache operations return
normally for every backend behavior. -/
theorem store_retry_cache_contract (retries : Nat)
    (g : Nat → RedisResult (Option String)) (s : Nat → RedisResult Unit) :
    ((executeWithRetry retries g).attempts ≤ retries
      ∧ (executeWithRetry retries g).reconnects = (executeWithRetry retries g).attempts - 1
      ∧ (executeWithRetry retries s).attempts ≤ retries
      ∧ (executeWithRetry retries s).reconnects = (executeWithRetry retries s).attempts - 1)
    ∧ (∃ v, store_cache_get retries g = Except.ok v)
    ∧ store_cache_set retries s = Except.ok ()
    ∧ ((∀ i, i < retries → g i = RedisResult.connError) →
        store_get retries g = Except.error ()
          ∧ store_cache_get retries g = Except.ok none)
    ∧ ((∀ i, i < retries → s i = RedisResult.connError) →
        (executeWithRetry retries s).result = Except.error ()
          ∧ store_cache_set retries s = Except.ok ()) := by
  have hg := execLoop_counts retries g retries
  have hs := execLoop_counts retries s retries
  refine ⟨⟨hg.1, hg.2.1, hs.1, hs.2.1⟩, ?_, ?_, ?_, ?_⟩
  · simp only [store_cache_get]
    cases hres : (executeWithRetry retries g).result with
    | ok v => exact ⟨v, rfl⟩
    | error e => exact ⟨none, rfl⟩
  · simp only [store_cache_set]
    cases hres : (executeWithRetry retries s).result with
    | ok v => rfl
    | error e => rfl
  · intro hall
    have hres := execLoop_allFail retries g hall retries le_rfl
    constructor
    · exact hres
    · simp only [store_cache_get, executeWithRetry] at hres ⊢
      rw [hres]
  · intro hall
    have hres := execLoop_allFail retries s hall retries le_rfl
    exact ⟨hres, by simp only [store_cache_set, executeWithRetry] at hres ⊢; rw [hres]⟩

/-- Witness for C4 at `retries = 3` with a backend that always raises. -/
theorem store_retry_cache_contract_witness :
    (executeWithRetry 3 (fun _ => (RedisResult.connError : RedisResult (Option String)))).attempts ≤ 3
    ∧ store_get 3 (fun _ => RedisResult.connError) = Except.error ()
    ∧ store_cache_get 3 (fun _ => RedisResult.connError) = Except.ok none
    ∧ store_cache_set 3 (fun _ => (RedisResult.connError : RedisResult Unit)) = Except.ok () := by
  have h := store_retry_cache_contract 3 (fun _ => RedisResult.connError)
    (fun _ => RedisResult.connError)
  exact ⟨h.1.1, (h.2.2.2.1 (fun i _ => rfl)).1, (h.2.2.2.1 (fun i _ => rfl)).2, h.2.2.1⟩

/-- `str(int(...))` of a natural number never has a minus sign. -/
theorem pyIntStr_ofNat (n : Nat) : pyIntStr (n : Int) = pyNatStr n := by
  rw [pyIntStr, if_neg (by omega), Int.natAbs_ofNat]

/-- The digit-count/leading-digit test of `PhoneField.validate` succeeds for
exactly the integers whose decimal representation has 11 characters starting
with '7', returning the integer itself. -/
theorem phoneIntCheck_ok_iff (m n : Int) :
    phoneIntCheck m = Except.ok n ↔
      n = m ∧ (pyIntStr m).length = 11 ∧ (pyIntStr m).data.head? = some '7' := by
  unfold phoneIntCheck
  split_ifs with h
  · constructor
    · intro hh
      injection hh with hh'
      exact ⟨hh'.symm, h.1, h.2⟩
    · rintro ⟨rfl, _, _⟩
      rfl
  · constructor
    · intro hh
      exact absurd hh (by simp)
    · rintro ⟨_, h1, h2⟩
      exact absurd ⟨h1, h2⟩ h

/-- C8 counterexample: "079175002040" is a digits-only string of 12 characters
(so "of any other digit count" than 11, and with leading digit 0), yet
`PhoneField` validation succeeds on it: `int(value)` first normalizes it to
79175002040, and the 11-digits-starting-with-7 check is applied to `str` of
that integer, not to the original string. The claim says it must fail. -/
theorem phone_leading_zeros_accepted :
    isDigitStr "079175002040" = true ∧ ("079175002040" : String).length = 12
    ∧ phoneValidate (Value.str "079175002040") = Except.ok 79175002040 :=
  ⟨by decide, by decide, by decide⟩

/-- C8 (amended): for every 11-digit string starting with '7', `PhoneField`
validation succeeds and yields the equal integer value; every non-digits
string fails; and in general a digits-only string or an integer succeeds if
and only if the decimal representation of its normalized integer value has
exactly 11 digits and starts with '7' (so digits strings with extra leading
zeros are also accepted when the underlying integer qualifies), yielding that
integer. -/
theorem phone_validate_characterization :
    (∀ s : String, isDigitStr s = true → s.length = 11 → s.data.head? = some '7' →
        phoneValidate (Value.str s) = Except.ok (strToNat s : Int))
    ∧ (∀ s : String, isDigitStr s = false →
        phoneValidate (Value.str s) = Except.error "phone must be digits")
    ∧ (∀ (s : String) (n : Int), isDigitStr s = true →
        (phoneValidate (Value.str s) = Except.ok n ↔
          n = (strToNat s : Int) ∧ (pyIntStr (strToNat s : Int)).length = 11
            ∧ (pyIntStr (strToNat s : Int)).data.head? = some '7'))
    ∧ (∀ (m n : Int),
        phoneValidate (Value.int m) = Except.ok n ↔
          n = m ∧ (pyIntStr m).length = 11 ∧ (pyIntStr m).data.head? = some '7') := by
  have hstr : ∀ s : String, isDigitStr s = true →
      phoneValidate (Value.str s) = phoneIntCheck (strToNat s : Int) := by
    intro s hd
    simp only [phoneValidate, hd, if_true]
  refine ⟨?_, ?_, ?_, ?_⟩
  · intro s hd hlen hhead
    have h0 : s.data.head? ≠ some '0' := by
      rw [hhead]
      intro heq
      injection heq with heq'
      exact absurd heq' (by decide)
    have hr : pyIntStr (strToNat s : Int) = s := by
      rw [pyIntStr_ofNat]
      exact pyNatStr_strToNat hd h0
    rw [hstr s hd, phoneIntCheck, if_pos]
    constructor
    · rw [hr]; exact hlen
    · rw [hr]; exact hhead
  · intro s hd
    simp only [phoneValidate, hd, Bool.false_eq_true, if_false]
  · intro s n hd
    rw [hstr s hd]
    exact phoneIntCheck_ok_iff _ n
  · intro m n
    simp only [phoneValidate]
    exact phoneIntCheck_ok_iff m n

/-- Witness for C8 (amended) at the valid phone string "79175002040" and the
non-digits string "ab". -/
theorem phone_validate_characterization_witness :
    phoneValidate (Value.str "79175002040") = Except.ok ((strToNat "79175002040" : Nat) : Int)
    ∧ phoneValidate (Value.str "ab") = Except.error "phone must be digits" :=
  ⟨phone_validate_characterization.1 "79175002040" (by decide) (by decide) (by decide),
    phone_validate_characterization.2.1 "ab" (by decide)⟩


theorem except_bind_ok {e a b : Type} (x : a) (f : a → Except e b) :
    (Except.ok x >>= f) = f x := rfl

theorem except_bind_error {e a b : Type} (u : e) (f : a → Except e b) :
    ((Except.error u : Except e a) >>= f) = Except.error u := rfl

theorem except_map_ok_iff {e a b : Type} (f : a → b) (x : Except e a) (y : b) :
    x.map f = Except.ok y ↔ ∃ v, x = Except.ok v ∧ f v = y := by
  cases x with
  | error u =>
    simp [Except.map]
  | ok v =>
    simp [Except.map]

theorem fieldSet_ok_inv {a : Type} {required nullable : Bool} {name : String}
    {validate : Value → Except String a} {v : Value} {x : Option a}
    (h : fieldSet required nullable name validate v = Except.ok x) :
    x = none ∨ ∃ w, x = some w ∧ validate v = Except.ok w := by
  cases v with
  | null =>
    simp only [fieldSet] at h
    split_ifs at h
    injection h with h'
    exact Or.inl h'.symm
  | str s =>
    simp only [fieldSet] at h
    obtain ⟨w, hw, rfl⟩ := (except_map_ok_iff _ _ _).mp h
    exact Or.inr ⟨w, rfl, hw⟩
  | int n =>
    simp only [fieldSet] at h
    obtain ⟨w, hw, rfl⟩ := (except_map_ok_iff _ _ _).mp h
    exact Or.inr ⟨w, rfl, hw⟩
  | list l =>
    simp only [fieldSet] at h
    obtain ⟨w, hw, rfl⟩ := (except_map_ok_iff _ _ _).mp h
    exact Or.inr ⟨w, rfl, hw⟩
  | dict d =>
    simp only [fieldSet] at h
    obtain ⟨w, hw, rfl⟩ := (except_map_ok_iff _ _ _).mp h
    exact Or.inr ⟨w, rfl, hw⟩

theorem birthDayValidate_ok {now : Int} {v : Value} {s : String}
    (h : birthDayValidate now v = Except.ok s) :
    v = Value.str s ∧ ∃ dt, parseDate s = some dt := by
  cases v with
  | str t =>
    simp only [birthDayValidate] at h
    cases hp : parseDate t with
    | none => rw [hp] at h; exact absurd h (by simp)
    | some dt =>
      rw [hp] at h
      dsimp only at h
      split_ifs at h
      injection h with h'
      subst h'
      exact ⟨rfl, dt, hp⟩
  | null => exact absurd h (by simp [birthDayValidate])
  | int n => exact absurd h (by simp [birthDayValidate])
  | list l => exact absurd h (by simp [birthDayValidate])
  | dict d => exact absurd h (by simp [birthDayValidate])

theorem osrSetAttr_preserves {now : Int} {st st' : OnlineScoreRequest}
    {kv : String × Value} (h : osrSetAttr now st kv = Except.ok st')
    (hst : osrBirthdayInv st) : osrBirthdayInv st' := by
  unfold osrSetAttr at h
  split_ifs at h with h1 h2 h3 h4 h5 h6
  · obtain ⟨x, _, rfl⟩ := (except_map_ok_iff _ _ _).mp h
    exact fun b hb => hst b hb
  · obtain ⟨x, _, rfl⟩ := (except_map_ok_iff _ _ _).mp h
    exact fun b hb => hst b hb
  · obtain ⟨x, _, rfl⟩ := (except_map_ok_iff _ _ _).mp h
    exact fun b hb => hst b hb
  · obtain ⟨x, _, rfl⟩ := (except_map_ok_iff _ _ _).mp h
    exact fun b hb => hst b hb
  · obtain ⟨x, hx, rfl⟩ := (except_map_ok_iff _ _ _).mp h
    intro b hb
    simp only at hb
    rcases fieldSet_ok_inv hx with hnone | ⟨w, hw, hval⟩
    · rw [hnone] at hb; exact absurd hb (by simp)
    · rw [hw] at hb
      injection hb with hb'
      subst hb'
      obtain ⟨_, dt, hdt⟩ := birthDayValidate_ok hval
      rw [hdt]
      rfl
  · obtain ⟨x, _, rfl⟩ := (except_map_ok_iff _ _ _).mp h
    exact fun b hb => hst b hb
  · injection h with h'
    subst h'
    exact hst

theorem osrInit_birthdayInv (now : Int) (kwargs : List (String × Value)) :
    ∀ st osr, kwargs.foldlM (osrSetAttr now) st = Except.ok osr →
      osrBirthdayInv st → osrBirthdayInv osr := by
  induction kwargs with
  | nil =>
    intro st osr h hst
    simp only [List.foldlM_nil] at h
    injection h with h'
    subst h'
    exact hst
  | cons kv rest ih =>
    intro st osr h hst
    rw [List.foldlM_cons] at h
    cases hstep : osrSetAttr now st kv with
    | error u =>
      rw [hstep, except_bind_error] at h
      exact absurd h (by simp)
    | ok st' =>
      rw [hstep, except_bind_ok] at h
      exact ih st' osr h (osrSetAttr_preserves hstep hst)

theorem onlineScoreRequestInit_birthdayInv {now : Int} {kwargs : List (String × Value)}
    {osr : OnlineScoreRequest} (h : onlineScoreRequestInit now kwargs = Except.ok osr) :
    osrBirthdayInv osr :=
  osrInit_birthdayInv now kwargs {} osr h (fun b hb => by exact absurd hb (by simp))

theorem get_score_tail_isOk (pyFloat : String → Rat) (cache_get : String → Option String)
    (key : String) (sc : Rat) :
    ∃ q ops, (match cache_get key with
      | some cached => Except.ok (pyFloat cached, [StoreOp.cget key])
      | none => (Except.ok (sc, [StoreOp.cget key, StoreOp.cset key sc (60 * 60)]) :
          Except Unit (Rat × List StoreOp))) = Except.ok (q, ops) := by
  cases cache_get key with
  | some c => exact ⟨_, _, rfl⟩
  | none => exact ⟨_, _, rfl⟩

theorem get_score_isOk (md5hex : String → String) (pyFloat : String → Rat)
    (cache_get : String → Option String) (phone : Option Int) (email : Option String)
    (birthday : Option String) (gender : Option Int)
    (first_name last_name : Option String)
    (hb : ∀ b, birthday = some b → (parseDate b).isSome = true) :
    ∃ q ops, get_score md5hex pyFloat cache_get phone email birthday gender first_name
        last_name = Except.ok (q, ops) := by
  unfold get_score
  cases birthday with
  | none =>
    dsimp only
    exact get_score_tail_isOk pyFloat cache_get _ _
  | some b =>
    have hp := hb b rfl
    cases hpd : parseDate b with
    | none => rw [hpd] at hp; exact absurd hp (by simp)
    | some dt =>
      by_cases hbe : b = ""
      · subst hbe
        rw [show parseDate "" = (none : Option PyDate) from rfl] at hpd
        exact absurd hpd (by simp)
      · have hbe' : (b == "") = false := by simpa using hbe
        dsimp only
        rw [hpd, hbe']
        dsimp only
        exact get_score_tail_isOk pyFloat cache_get _ _


/-- Reduction of `method_handler` on an authenticated `online_score` call whose
arguments construct a valid `OnlineScoreRequest`: the residual computation is
the pair-rule gate followed by the admin shortcut or the scoring call. -/
theorem method_handler_online_score
    (sha512hex md5hex : String → String) (pyFloat : String → Rat)
    (nowHourStr : String) (now : Int) (cache_get : String → Option String)
    (storeGetNet : String → Except Unit (Option String))
    (parseJSON : String → Except Unit Value)
    (body args : List (String × Value)) (req : MethodRequest) (osr : OnlineScoreRequest)
    (h1 : methodRequestInit body = Except.ok req)
    (h2 : check_auth sha512hex nowHourStr req = true)
    (h3 : req.method = some "online_score")
    (h4 : req.arguments = some args)
    (h5 : onlineScoreRequestInit now args = Except.ok osr) :
    method_handler sha512hex md5hex pyFloat nowHourStr now cache_get storeGetNet
        parseJSON body =
      if pairRule osr = true then
        (if req.is_admin = true then
          Except.ok (HResp.score 42, OK, ([] : List StoreOp))
        else
          match get_score md5hex pyFloat cache_get osr.phone osr.email osr.birthday
              osr.gender osr.first_name osr.last_name with
          | .error _ => .error ()
          | .ok (s, ops) => .ok (.score s, OK, ops))
      else Except.ok (HResp.err "at least one pair must be filled", INVALID_REQUEST, []) := by
  unfold method_handler
  rw [h1]
  dsimp only
  cases hpr : pairRule osr with
  | true =>
    cases ha : req.is_admin with
    | true => simp [h2, h3, h4, h5, hpr, ha]
    | false => simp [h2, h3, h4, h5, hpr, ha]
  | false => simp [h2, h3, h4, h5, hpr]


/-- C3: for every authenticated `online_score` call whose arguments construct
a valid `OnlineScoreRequest`, the dispatcher proceeds to produce a score if
and only if at least one of the three pairs (phone, email),
(first_name, last_name), (gender, birthday) has both members non-absent and
non-empty; when no pair is jointly filled it returns INVALID_REQUEST with the
fixed message "at least one pair must be filled". -/
theorem online_score_pair_gate
    (sha512hex md5hex : String → String) (pyFloat : String → Rat)
    (nowHourStr : String) (now : Int) (cache_get : String → Option String)
    (storeGetNet : String → Except Unit (Option String))
    (parseJSON : String → Except Unit Value)
    (body args : List (String × Value)) (req : MethodRequest) (osr : OnlineScoreRequest)
    (h1 : methodRequestInit body = Except.ok req)
    (h2 : check_auth sha512hex nowHourStr req = true)
    (h3 : req.method = some "online_score")
    (h4 : req.arguments = some args)
    (h5 : onlineScoreRequestInit now args = Except.ok osr) :
    (pairRule osr = true →
      ∃ q ops, method_handler sha512hex md5hex pyFloat nowHourStr now cache_get
          storeGetNet parseJSON body = Except.ok (HResp.score q, OK, ops))
    ∧ (pairRule osr = false →
      method_handler sha512hex md5hex pyFloat nowHourStr now cache_get storeGetNet
          parseJSON body
        = Except.ok (HResp.err "at least one pair must be filled", INVALID_REQUEST, [])) := by
  have hred := method_handler_online_score sha512hex md5hex pyFloat nowHourStr now
    cache_get storeGetNet parseJSON body args req osr h1 h2 h3 h4 h5
  constructor
  · intro hpr
    rw [hred, if_pos hpr]
    cases ha : req.is_admin with
    | true => exact ⟨42, [], by rw [if_pos rfl]⟩
    | false =>
      rw [if_neg (by simp)]
      have hinv := onlineScoreRequestInit_birthdayInv h5
      obtain ⟨q, ops, hq⟩ := get_score_isOk md5hex pyFloat cache_get osr.phone osr.email
        osr.birthday osr.gender osr.first_name osr.last_name (fun b hb => hinv b hb)
      rw [hq]
      exact ⟨q, ops, rfl⟩
  · intro hpr
    rw [hred, if_neg (by simp [hpr])]

/-- C6: for every authenticated `online_score` call by the admin login whose
arguments satisfy the pair rule, the dispatcher returns OK with score exactly
42 and performs no store operation at all (the returned operation trace is
empty, so the store's state is unchanged). -/
theorem admin_score_constant_no_store
    (sha512hex md5hex : String → String) (pyFloat : String → Rat)
    (nowHourStr : String) (now : Int) (cache_get : String → Option String)
    (storeGetNet : String → Except Unit (Option String))
    (parseJSON : String → Except Unit Value)
    (body args : List (String × Value)) (req : MethodRequest) (osr : OnlineScoreRequest)
    (h1 : methodRequestInit body = Except.ok req)
    (h2 : check_auth sha512hex nowHourStr req = true)
    (h3 : req.method = some "online_score")
    (h4 : req.arguments = some args)
    (h5 : onlineScoreRequestInit now args = Except.ok osr)
    (h6 : req.login = some ADMIN_LOGIN)
    (h7 : pairRule osr = true) :
    method_handler sha512hex md5hex pyFloat nowHourStr now cache_get storeGetNet
        parseJSON body = Except.ok (HResp.score 42, OK, []) := by
  have hred := method_handler_online_score sha512hex md5hex pyFloat nowHourStr now
    cache_get storeGetNet parseJSON body args req osr h1 h2 h3 h4 h5
  rw [hred, if_pos h7, if_pos (by simp [MethodRequest.is_admin, h6])]


/-- `Store.cache_set` returns normally for every backend behavior. -/
theorem store_cache_set_ok (retries : Nat) (o : Nat → RedisResult Unit) :
    store_cache_set retries o = Except.ok () := by
  simp only [store_cache_set]
  cases hres : (executeWithRetry retries o).result with
  | ok v => rfl
  | error e => rfl

/-- The specification's additive sum equals the sequential accumulation the
code performs. -/
theorem scoreSpec_eq_chain (phone : Option Int) (email birthday : Option String)
    (gender : Option Int) (first_name last_name : Option String) :
    scoreSpec phone email birthday gender first_name last_name =
      (let s0 : Rat := 0
       let s1 := if intTruthy phone then s0 + 1.5 else s0
       let s2 := if strTruthy email then s1 + 1.5 else s1
       let s3 := if strTruthy birthday && gender.isSome then s2 + 1.5 else s2
       if strTruthy first_name && strTruthy last_name then s3 + 0.5 else s3) := by
  unfold scoreSpec
  cases intTruthy phone <;> cases strTruthy email
    <;> cases strTruthy birthday && gender.isSome
    <;> cases strTruthy first_name && strTruthy last_name
    <;> norm_num

/-- C5: on a cache miss, `get_score` returns exactly the additive sum of the
four components — 1.5 for a filled phone, 1.5 for a filled email, 1.5 for
birthday together with a supplied gender, 0.5 for both names, hence at most
5.0 — and issues a cache write of that value under the derived
`"uid:" + md5(...)` key with a one-hour TTL (60*60 seconds); a failure of the
cache write cannot fail the call, since `Store.cache_set` returns normally
for every backend behavior. -/
theorem get_score_cache_miss_additive
    (md5hex : String → String) (pyFloat : String → Rat)
    (cache_get : String → Option String)
    (phone : Option Int) (email : Option String) (birthday : Option String)
    (gender : Option Int) (first_name last_name : Option String)
    (hb : ∀ b, birthday = some b → (parseDate b).isSome = true)
    (hmiss : ∀ k, cache_get k = none) :
    (∃ parts, get_score md5hex pyFloat cache_get phone email birthday gender
        first_name last_name
      = Except.ok (scoreSpec phone email birthday gender first_name last_name,
          [StoreOp.cget ("uid:" ++ md5hex parts),
            StoreOp.cset ("uid:" ++ md5hex parts)
              (scoreSpec phone email birthday gender first_name last_name) (60 * 60)]))
    ∧ scoreSpec phone email birthday gender first_name last_name ≤ 5
    ∧ (∀ (retries : Nat) (o : Nat → RedisResult Unit),
        store_cache_set retries o = Except.ok ()) := by
  refine ⟨?_, ?_, fun retries o => store_cache_set_ok retries o⟩
  · have hsc := scoreSpec_eq_chain phone email birthday gender first_name last_name
    unfold get_score
    cases birthday with
    | none =>
      dsimp only
      rw [hmiss]
      rw [hsc]
      exact ⟨_, rfl⟩
    | some b =>
      have hp := hb b rfl
      cases hpd : parseDate b with
      | none => rw [hpd] at hp; exact absurd hp (by simp)
      | some dt =>
        by_cases hbe : b = ""
        · subst hbe
          rw [show parseDate "" = (none : Option PyDate) from rfl] at hpd
          exact absurd hpd (by simp)
        · have hbe' : (b == "") = false := by simpa using hbe
          dsimp only
          rw [hpd, hbe']
          simp only [Bool.false_eq_true, if_false]
          rw [hmiss]
          rw [hsc]
          exact ⟨_, rfl⟩
  · unfold scoreSpec
    split_ifs <;> norm_num


theorem except_map_ok {e a b : Type} (f : a → b) (x : a) :
    (Except.ok x : Except e a).map f = Except.ok (f x) := rfl

theorem except_map_error {e a b : Type} (f : a → b) (u : e) :
    (Except.error u : Except e a).map f = Except.error u := rfl

/-- `get_score` on gender plus birthday alone, cache missing: score 1.5. -/
theorem get_score_gender_birthday (md5hex : String → String) (pyFloat : String → Rat)
    (cache_get : String → Option String) (b : String) (dt : PyDate) (g : Int)
    (hdt : parseDate b = some dt) (hbne : (b == "") = false)
    (hmiss : ∀ k, cache_get k = none) :
    ∃ key, get_score md5hex pyFloat cache_get none none (some b) (some g) none none
      = Except.ok (1.5, [StoreOp.cget key, StoreOp.cset key 1.5 (60 * 60)]) := by
  simp only [get_score]
  rw [hdt, hbne]
  simp only [Bool.false_eq_true, if_false]
  rw [hmiss]
  simp only [intTruthy, strTruthy, hbne, Option.isSome_some, Bool.false_eq_true, if_false,
    Bool.false_and, Bool.and_true, Bool.not_false, if_true]
  norm_num

/-- C10: gender value 0 counts as present throughout the `online_score` path:
for every valid `OnlineScoreRequest` supplying gender 0 together with a valid
birthday (all other fields absent), the three-pair rule is satisfied, and on
a cache miss a non-admin call returns score 1.5 — the birthday-and-gender
component is added because the code's presence test is `gender is not None`,
not truthiness. -/
theorem gender_zero_present_score
    (sha512hex md5hex : String → String) (pyFloat : String → Rat)
    (nowHourStr : String) (now : Int) (cache_get : String → Option String)
    (storeGetNet : String → Except Unit (Option String))
    (parseJSON : String → Except Unit Value)
    (body : List (String × Value)) (req : MethodRequest) (osr : OnlineScoreRequest)
    (b : String)
    (h1 : methodRequestInit body = Except.ok req)
    (h2 : check_auth sha512hex nowHourStr req = true)
    (h3 : req.method = some "online_score")
    (h4 : req.arguments = some [("gender", Value.int 0), ("birthday", Value.str b)])
    (h5 : onlineScoreRequestInit now [("gender", Value.int 0), ("birthday", Value.str b)]
        = Except.ok osr)
    (h6 : req.is_admin = false)
    (hmiss : ∀ k, cache_get k = none) :
    pairRule osr = true
    ∧ ∃ key, method_handler sha512hex md5hex pyFloat nowHourStr now cache_get storeGetNet
        parseJSON body
      = Except.ok (HResp.score 1.5, OK,
          [StoreOp.cget key, StoreOp.cset key 1.5 (60 * 60)]) := by
  have hg : osrSetAttr now {} ("gender", Value.int 0)
      = Except.ok ⟨none, none, none, none, none, some 0⟩ := rfl
  have hstep : osrSetAttr now ⟨none, none, none, none, none, some 0⟩
      ("birthday", Value.str b)
      = ((birthDayValidate now (Value.str b)).map some).map
          (fun x => ⟨none, none, none, none, x, some 0⟩) := rfl
  have h5orig := h5
  unfold onlineScoreRequestInit at h5
  rw [List.foldlM_cons, hg, except_bind_ok, List.foldlM_cons, hstep] at h5
  cases hbv : birthDayValidate now (Value.str b) with
  | error u =>
    rw [hbv, except_map_error, except_map_error, except_bind_error] at h5
    exact absurd h5 (by simp)
  | ok s' =>
    obtain ⟨hvb, dt, hdt⟩ := birthDayValidate_ok hbv
    injection hvb with hbs
    subst hbs
    rw [hbv, except_map_ok, except_map_ok, except_bind_ok, List.foldlM_nil] at h5
    have hosr : osr = ⟨none, none, none, none, some b, some 0⟩ := by
      injection h5 with h5'
      exact h5'.symm
    subst hosr
    have hbne : (b == "") = false := by
      by_cases hbe : b = ""
      · subst hbe
        rw [show parseDate "" = (none : Option PyDate) from rfl] at hdt
        exact absurd hdt (by simp)
      · simpa using hbe
    have hpair : pairRule ⟨none, none, none, none, some b, some 0⟩ = true := by
      simp [pairRule, strTruthy, hbne]
    refine ⟨hpair, ?_⟩
    have hred := method_handler_online_score sha512hex md5hex pyFloat nowHourStr now
      cache_get storeGetNet parseJSON body [("gender", Value.int 0), ("birthday", Value.str b)]
      req ⟨none, none, none, none, some b, some 0⟩ h1 h2 h3 h4 h5orig
    rw [hred, if_pos hpair, if_neg (by simp [h6])]
    obtain ⟨key, hgs⟩ := get_score_gender_birthday md5hex pyFloat cache_get b dt 0 hdt
      hbne hmiss
    rw [hgs]
    exact ⟨key, rfl⟩


/-- Witness for C3 at a concrete authenticated request with a filled
(phone, email) pair. -/
theorem online_score_pair_gate_witness :
    ∃ q ops, method_handler (fun _ => "t") (fun _ => "k") (fun _ => (0 : Rat)) "x" 0
        (fun _ => none) (fun _ => Except.ok none) (fun _ => Except.ok (Value.list []))
        [("login", Value.str "u"), ("token", Value.str "t"),
          ("arguments", Value.dict [("phone", Value.str "79175002040"),
            ("email", Value.str "a@b.com")]),
          ("method", Value.str "online_score")]
      = Except.ok (HResp.score q, OK, ops) :=
  (online_score_pair_gate (fun _ => "t") (fun _ => "k") (fun _ => (0 : Rat)) "x" 0
      (fun _ => none) (fun _ => Except.ok none) (fun _ => Except.ok (Value.list []))
      [("login", Value.str "u"), ("token", Value.str "t"),
        ("arguments", Value.dict [("phone", Value.str "79175002040"),
          ("email", Value.str "a@b.com")]),
        ("method", Value.str "online_score")]
      [("phone", Value.str "79175002040"), ("email", Value.str "a@b.com")]
      ⟨none, some "u", some "t",
        some [("phone", Value.str "79175002040"), ("email", Value.str "a@b.com")],
        some "online_score"⟩
      ⟨none, none, some "a@b.com", some 79175002040, none, none⟩
      rfl rfl rfl rfl rfl).1 rfl

/-- Witness for C6 at a concrete admin request. -/
theorem admin_score_constant_no_store_witness :
    method_handler (fun _ => "t") (fun _ => "k") (fun _ => (0 : Rat)) "x" 0
        (fun _ => none) (fun _ => Except.ok none) (fun _ => Except.ok (Value.list []))
        [("login", Value.str "admin"), ("token", Value.str "t"),
          ("arguments", Value.dict [("phone", Value.str "79175002040"),
            ("email", Value.str "a@b.com")]),
          ("method", Value.str "online_score")]
      = Except.ok (HResp.score 42, OK, []) :=
  admin_score_constant_no_store (fun _ => "t") (fun _ => "k") (fun _ => (0 : Rat)) "x" 0
    (fun _ => none) (fun _ => Except.ok none) (fun _ => Except.ok (Value.list []))
    [("login", Value.str "admin"), ("token", Value.str "t"),
      ("arguments", Value.dict [("phone", Value.str "79175002040"),
        ("email", Value.str "a@b.com")]),
      ("method", Value.str "online_score")]
    [("phone", Value.str "79175002040"), ("email", Value.str "a@b.com")]
    ⟨none, some "admin", some "t",
      some [("phone", Value.str "79175002040"), ("email", Value.str "a@b.com")],
      some "online_score"⟩
    ⟨none, none, some "a@b.com", some 79175002040, none, none⟩
    rfl rfl rfl rfl rfl rfl rfl

/-- Witness for C5 at a concrete phone + email argument set on an empty
cache. -/
theorem get_score_cache_miss_additive_witness :
    (∃ parts, get_score (fun _ => "k") (fun _ => (0 : Rat)) (fun _ => none)
        (some 79175002040) (some "a@b.com") none none none none
      = Except.ok (scoreSpec (some 79175002040) (some "a@b.com") none none none none,
          [StoreOp.cget ("uid:" ++ (fun (_ : String) => "k") parts),
            StoreOp.cset ("uid:" ++ (fun (_ : String) => "k") parts)
              (scoreSpec (some 79175002040) (some "a@b.com") none none none none)
              (60 * 60)]))
    ∧ scoreSpec (some 79175002040) (some "a@b.com") none none none none ≤ 5
    ∧ (∀ (retries : Nat) (o : Nat → RedisResult Unit),
        store_cache_set retries o = Except.ok ()) :=
  get_score_cache_miss_additive (fun _ => "k") (fun _ => (0 : Rat)) (fun _ => none)
    (some 79175002040) (some "a@b.com") none none none none
    (fun _ hb => Option.noConfusion hb) (fun _ => rfl)

/-- Witness for C10 at gender 0 with birthday "01.01.2000". -/
theorem gender_zero_present_score_witness :
    pairRule ⟨none, none, none, none, some "01.01.2000", some 0⟩ = true
    ∧ ∃ key, method_handler (fun _ => "t") (fun _ => "k") (fun _ => (0 : Rat)) "x"
        nowOct2026 (fun _ => none) (fun _ => Except.ok none)
        (fun _ => Except.ok (Value.list []))
        [("login", Value.str "u"), ("token", Value.str "t"),
          ("arguments", Value.dict [("gender", Value.int 0),
            ("birthday", Value.str "01.01.2000")]),
          ("method", Value.str "online_score")]
      = Except.ok (HResp.score 1.5, OK,
          [StoreOp.cget key, StoreOp.cset key 1.5 (60 * 60)]) :=
  gender_zero_present_score (fun _ => "t") (fun _ => "k") (fun _ => (0 : Rat)) "x"
    nowOct2026 (fun _ => none) (fun _ => Except.ok none)
    (fun _ => Except.ok (Value.list []))
    [("login", Value.str "u"), ("token", Value.str "t"),
      ("arguments", Value.dict [("gender", Value.int 0),
        ("birthday", Value.str "01.01.2000")]),
      ("method", Value.str "online_score")]
    ⟨none, some "u", some "t",
      some [("gender", Value.int 0), ("birthday", Value.str "01.01.2000")],
      some "online_score"⟩
    ⟨none, none, none, none, some "01.01.2000", some 0⟩
    "01.01.2000" rfl rfl rfl rfl rfl rfl (fun _ => rfl)

end MyPr
